import Mathlib

/-!
Verification of the Merlin support-matrix extractor (docs/extractor.py).

The script inspects a fixed list of container images for a release tag,
extracts version metadata from inside each running container, and merges the
results into a nested JSON data store keyed by container name and release.

We embed the script shallowly:
  * Python dicts become association lists whose update keeps the position of
    an existing key and appends a fresh key at the end, exactly like the
    insertion-ordered dicts of CPython.
  * Python values that can appear in a record become the type `PyVal`
    (string, integer, or None).
  * `container.exec_run` is a function from an abstract command descriptor
    to an exit status and decoded output.
  * Fallible code returns `Except PyExc`, where `PyExc` models the Python
    exceptions that can escape (KeyError, TypeError, the RuntimeError that
    `contextlib` raises on a second yield, and docker errors).
-/

namespace Merlin

/-- Values that the script stores into a record: strings from extraction,
raw integers copied out of image attributes, and Python `None` (which
`insert_snippet` can store when an argparse option was omitted). -/
inductive PyVal where
  | str (s : String)
  | int (n : Int)
  | pyNone
deriving DecidableEq

/-- Python exceptions that the embedded code can raise or observe. -/
inductive PyExc where
  | keyError (k : String)
  | typeError
  | imageNotFoundErr
  | otherErr
  | runtimeErr
deriving DecidableEq

/-- One record of extracted attributes (`self.contdata`): a Python dict from
attribute key to value. -/
abbrev Record := List (String × PyVal)

/-- Second level of the data store: release tag to record. -/
abbrev RelMap := List (String × Record)

/-- The data store (`self.data`): container name to release map. -/
abbrev Store := List (String × RelMap)

/-- Dict lookup, `d[k]` as an `Option`: first (and in a real dict, only)
binding of the key. -/
def lookupL {α : Type} (l : List (String × α)) (k : String) : Option α :=
  match l with
  | [] => none
  | (k₁, v) :: tl => if k₁ = k then some v else lookupL tl k

/-- Dict assignment `d[k] = v`: overwrite the binding in place if the key is
present, append it otherwise, as insertion-ordered Python dicts do. -/
def setL {α : Type} (l : List (String × α)) (k : String) (v : α) : List (String × α) :=
  match l with
  | [] => [(k, v)]
  | (k₁, v₁) :: tl => if k₁ = k then (k₁, v) :: tl else (k₁, v₁) :: setL tl k v

/-- Keys of a dict in order. -/
def keysOf {α : Type} (l : List (String × α)) : List String :=
  l.map Prod.fst

/-- Two-level lookup `store[name][rel]` as an `Option`. -/
def lookup2 (s : Store) (name rel : String) : Option Record :=
  match lookupL s name with
  | some m => lookupL m rel
  | none => none

/-- The failure sentinel `SupportMatrixExtractor.ERROR`. -/
def ERROR : String := "Not applicable"

/-- Characters treated as whitespace by the Python `str.isspace`, `strip` and
`split()` used on command output.  We model the ASCII and Latin-1 part of the
Python class (space, TAB, LF, VT, FF, CR, FS, GS, RS, US, NEL and NBSP);
space separators beyond Latin-1 never occur in the modelled command
outputs. -/
def isPySpaceChar (c : Char) : Bool :=
  c = ' ' || c = '\t' || c = '\n' || c = '\r' || c.toNat = 11 || c.toNat = 12 ||
    (28 ≤ c.toNat && c.toNat ≤ 31) || c.toNat = 133 || c.toNat = 160

/-- Python `str.isspace()`: non-empty and every character is whitespace. -/
def pyIsSpace (s : String) : Bool :=
  !s.data.isEmpty && s.data.all isPySpaceChar

/-- Python `str.strip()`: drop leading and trailing whitespace. -/
def pyStrip (s : String) : String :=
  String.mk (((s.data.dropWhile isPySpaceChar).reverse.dropWhile isPySpaceChar).reverse)

/-- Python `s.replace(dquote, empty)`: delete every double-quote character. -/
def removeQuotes (s : String) : String :=
  String.mk (s.data.filter (fun c => c != '"'))

/-- Accumulating splitter behind `pySplitWhite`: collects maximal runs of
non-whitespace characters. -/
def wordsAux (cur : List Char) : List Char → List (List Char)
  | [] => if cur.isEmpty then [] else [cur.reverse]
  | c :: cs =>
    if isPySpaceChar c then
      if cur.isEmpty then wordsAux [] cs else cur.reverse :: wordsAux [] cs
    else
      wordsAux (c :: cur) cs

/-- Python `str.split()` with no separator: split on whitespace runs and drop
empty pieces. -/
def pySplitWhite (s : String) : List String :=
  (wordsAux [] s.data).map String.mk

/-- Splitter behind `pySplitLines`: split a character list at every
occurrence of the separator character. -/
def splitCharList (sep : Char) : List Char → List (List Char)
  | [] => [[]]
  | c :: cs =>
    let r := splitCharList sep cs
    if c = sep then [] :: r
    else
      match r with
      | hd :: tl => (c :: hd) :: tl
      | [] => [[c]]

/-- Python `s.split(nl)` on the newline separator, keeping empty pieces. -/
def pySplitLines (s : String) : List String :=
  (splitCharList '\n' s.data).map String.mk

/-- Python `str.startswith`. -/
def startsWithStr (p s : String) : Bool :=
  List.isPrefixOf p.data s.data

/-- Python `sep.join(xs)`. -/
def joinSep (sep : String) : List String → String
  | [] => ""
  | [x] => x
  | x :: xs => x ++ sep ++ joinSep sep xs

/-- Rendering applied by `str.format` to a record value. -/
def pyFormat : PyVal → String
  | PyVal.str s => s
  | PyVal.int n => toString n
  | PyVal.pyNone => "None"

/-- Abstract descriptor of the command string passed to
`container.exec_run`; each extractor builds a distinguishable command from
its arguments, so the formatted shell text is abstracted to its parts. -/
inductive ExecCmd where
  | envfile (path lookup : String)
  | env (lookup : String)
  | pipShow (pkg : String)
  | shell (cmd : String)
deriving DecidableEq

/-- The exec interface of a running container: command to
(exit status, decoded output). -/
abbrev ExecFun := ExecCmd → Nat × String

/-- `SupportMatrixExtractor.get_from_envfile`: source a file, echo a
variable; on exit status 1 or all-whitespace output the key keeps the
sentinel, otherwise the output is stored with double quotes removed and
whitespace stripped. -/
def get_from_envfile (ex : ExecFun) (path lookup : String) (key : Option String)
    (r : Record) : Record :=
  let k := key.getD lookup
  let r₁ := setL r k (PyVal.str ERROR)
  let res := ex (ExecCmd.envfile path lookup)
  let result := res.2
  if res.1 != 1 && !(pyIsSpace result) then
    setL r₁ k (PyVal.str (pyStrip (removeQuotes result)))
  else
    r₁

/-- `SupportMatrixExtractor.get_from_env`: echo an environment variable
directly; same success condition and normalization as the env-file
extractor. -/
def get_from_env (ex : ExecFun) (lookup : String) (key : Option String)
    (r : Record) : Record :=
  let k := key.getD lookup
  let r₁ := setL r k (PyVal.str ERROR)
  let res := ex (ExecCmd.env lookup)
  let result := res.2
  if res.1 != 1 && !(pyIsSpace result) then
    setL r₁ k (PyVal.str (pyStrip (removeQuotes result)))
  else
    r₁

/-- Last whitespace-separated token of a line, `line.split()[-1]`.  The lines
this is applied to start with the marker `Version:`, hence are never
all-whitespace, so the default is unreachable. -/
def lastToken (line : String) : String :=
  (pySplitWhite line).getLastD ""

/-- `SupportMatrixExtractor.get_from_pip`: run `python -m pip show`; on
non-zero exit the sentinel stays; otherwise the lines starting with
`Version:` are collected and only a unique such line yields a value, namely
its last whitespace-separated token, stripped. -/
def get_from_pip (ex : ExecFun) (lookup : String) (key : Option String)
    (r : Record) : Record :=
  let k := key.getD lookup
  let r₁ := setL r k (PyVal.str ERROR)
  let res := ex (ExecCmd.pipShow lookup)
  if res.1 != 0 then
    r₁
  else
    let versions :=
      ((pySplitLines res.2).filter (fun line => startsWithStr "Version:" line)).map lastToken
    match versions with
    | [v] => setL r₁ k (PyVal.str (pyStrip v))
    | _ => r₁

/-- Nat subexpression 1024 cubed, the divisor of the size conversion. -/
def gibi : Nat := 1073741824

/-- Bankers rounding of `bytes / gibi` to a whole number of hundredths,
the exact-rational reading of Python `round(bytes / 1024 ** 3, 2)`.
Image sizes are nonnegative, so the computation lives in `Nat`. -/
def roundCentisHalfEven (bytes : Nat) : Nat :=
  let n := bytes * 100
  let q := n / gibi
  let rem := n % gibi
  if 2 * rem < gibi then q
  else if gibi < 2 * rem then q + 1
  else if q % 2 = 0 then q else q + 1

/-- Decimal rendering of a number of hundredths the way Python repr prints
the float produced by `round(x, 2)`: trailing zeros dropped but at least one
fractional digit kept. -/
def renderCentis (m : Nat) : String :=
  let ip := m / 100
  let fr := m % 100
  if fr = 0 then toString ip ++ ".0"
  else if fr % 10 = 0 then toString ip ++ "." ++ toString (fr / 10)
  else if fr < 10 then toString ip ++ ".0" ++ toString fr
  else toString ip ++ "." ++ toString fr

/-- The size conversion of `get_from_image`: bytes to gibibytes rounded to
two decimal places, with the unit suffix. -/
def formatGB (v : Int) : String :=
  renderCentis (roundCentisHalfEven v.toNat) ++ " GB"

/-- `SupportMatrixExtractor.get_from_image`: copy an attribute of the image
metadata into the record; a missing attribute is caught (KeyError) and
leaves the sentinel.  For the `Size` attribute the code then reads
`attrs[lookup]` a second time OUTSIDE the try block and converts it to
gibibytes, so a missing or non-integer `Size` raises out of the method. -/
def get_from_image (attrs : List (String × PyVal)) (lookup : String)
    (key : Option String) (r : Record) : Except PyExc Record :=
  let k := key.getD lookup
  let r₁ := setL r k (PyVal.str ERROR)
  let r₂ :=
    match lookupL attrs lookup with
    | some v => setL r₁ k v
    | none => r₁
  if lookup = "Size" then
    match lookupL attrs "Size" with
    | some (PyVal.int n) => Except.ok (setL r₂ k (PyVal.str (formatGB n)))
    | some _ => Except.error PyExc.typeError
    | none => Except.error (PyExc.keyError "Size")
  else
    Except.ok r₂

/-- `SupportMatrixExtractor.get_from_cmd`: run a shell command; on any exit
status other than 1 the stripped output is stored, and for the designated
key `sm` the output is re-split on whitespace and joined with a comma. -/
def get_from_cmd (ex : ExecFun) (cmd : String) (key : String) (r : Record) : Record :=
  let r₁ := setL r key (PyVal.str ERROR)
  let res := ex (ExecCmd.shell cmd)
  if res.1 != 1 then
    let r₂ := setL r₁ key (PyVal.str (pyStrip res.2))
    if key = "sm" then
      setL r₂ key (PyVal.str (joinSep ", " (pySplitWhite res.2)))
    else
      r₂
  else
    r₁

/-- `SupportMatrixExtractor.insert_snippet`: store a static value. -/
def insert_snippet (key : String) (snip : PyVal) (r : Record) : Record :=
  setL r key snip

/-- Outcome of `client.containers.run` at the head of `managed_container`:
a started container with its identifier, the ImageNotFound error, or any
other startup exception. -/
inductive StartOutcome where
  | started (cid : Nat)
  | imageNotFound
  | otherError
deriving DecidableEq

/-- What the `with managed_container(img) as container` body receives: the
container handle, or the exception instance that the generator yields on a
startup failure. -/
inductive Yielded where
  | cont (cid : Nat)
  | exc (e : PyExc)
deriving DecidableEq

/-- Observable docker lifecycle calls issued by `managed_container`. -/
inductive Event where
  | run (cid : Nat)
  | stop (cid : Nat)
  | remove (cid : Nat)
deriving DecidableEq

/-- The `managed_container` context manager applied to a with-body.  The
generator wraps `client.containers.run` and its single yield in
try/except/finally:

  * startup succeeds: the handle is yielded; when the body completes, the
    generator resumes past the yield and the finally clause stops and
    removes the container; when the body raises, the exception is thrown
    into the generator at the yield, the broad `except Exception` catches
    it and yields the exception again, `contextlib` answers the extra yield
    with RuntimeError and closes the generator, and the finally clause
    still stops and removes the container before anything propagates;
  * `ImageNotFound` or another startup exception: no container exists, the
    exception instance itself is yielded to the body, and the finally
    clause finds `container` still None, so no lifecycle call is made.

The result pairs what the scope returns (or propagates) with the lifecycle
events, in order. -/
def managed_container {α : Type} (start : StartOutcome)
    (body : Yielded → Except PyExc α) : Except PyExc α × List Event :=
  match start with
  | StartOutcome.started cid =>
    match body (Yielded.cont cid) with
    | Except.ok a => (Except.ok a, [Event.run cid, Event.stop cid, Event.remove cid])
    | Except.error _ =>
      (Except.error PyExc.runtimeErr, [Event.run cid, Event.stop cid, Event.remove cid])
  | StartOutcome.imageNotFound => (body (Yielded.exc PyExc.imageNotFoundErr), [])
  | StartOutcome.otherError => (body (Yielded.exc PyExc.otherErr), [])

/-- Zero-padded two-digit rendering used by `strftime`. -/
def pad2 (n : Nat) : String :=
  if n < 10 then "0" ++ toString n else toString n

/-- `get_yymm`: the current date rendered as YY.MM, from the year and month
of the day the script runs. -/
def get_yymm (year month : Nat) : String :=
  pad2 (year % 100) ++ "." ++ pad2 month

/-- The deep merge of `mergedeep.merge` at record depth: values are strings
or other scalars, so bindings of the source replace bindings of the
destination key by key. -/
def mergeRecord (dst : Record) : Record → Record
  | [] => dst
  | p :: tl => mergeRecord (setL dst p.1 p.2) tl

/-- The deep merge at release-map depth: when a release key exists on both
sides the records are deep-merged, otherwise the binding of the source is
inserted as is. -/
def mergeRelMap (dst : RelMap) : RelMap → RelMap
  | [] => dst
  | p :: tl =>
    match lookupL dst p.1 with
    | some r => mergeRelMap (setL dst p.1 (mergeRecord r p.2)) tl
    | none => mergeRelMap (setL dst p.1 p.2) tl

/-- The deep merge at store depth, iterating the source into the
destination exactly as `mergedeep.merge(dst, src)` does. -/
def mergeStore (dst : Store) : Store → Store
  | [] => dst
  | p :: tl =>
    match lookupL dst p.1 with
    | some m => mergeStore (setL dst p.1 (mergeRelMap m p.2)) tl
    | none => mergeStore (setL dst p.1 p.2) tl

/-- The `if self.container_name not in _data` guard of `from_json`. -/
def ensure_name (s : Store) (name : String) : Store :=
  if (lookupL s name).isSome then s else setL s name []

/-- The `if self.release not in _data[self.container_name]` guard of
`from_json`; the name is guaranteed present by `ensure_name`. -/
def ensure_release (s : Store) (name rel : String) : Store :=
  match lookupL s name with
  | some m => if (lookupL m rel).isSome then s else setL s name (setL m rel [])
  | none => s

/-- The dict assignment `self.data[name][release] = contdata` appearing at
the end of `from_json`: the outer subscript raises KeyError when the name
is absent, the inner assignment inserts or replaces. -/
def setStoreE (s : Store) (name rel : String) (rec : Record) : Except PyExc Store :=
  match lookupL s name with
  | some m => Except.ok (setL s name (setL m rel rec))
  | none => Except.error (PyExc.keyError name)

/-- Total variant of the same path update, used to express that the record
object placed in the store stays aliased to `self.contdata`, so the store
that `to_json_file` serializes holds the final contents of the record. -/
def setStore (s : Store) (name rel : String) (rec : Record) : Store :=
  match lookupL s name with
  | some m => setL s name (setL m rel rec)
  | none => setL s name [(rel, rec)]

/-- `SupportMatrixExtractor.from_json`: a missing file leaves `self.data`
untouched; otherwise the file contents are loaded, the (name, release)
path is created if absent, `merge(\x7b\x7d, _data, self.data)` overlays
`self.data` on the loaded store, and the record at the (name, release)
path is replaced by `self.contdata`. -/
def from_json (file : Option Store) (name rel : String) (data : Store)
    (contdata : Record) : Except PyExc Store :=
  match file with
  | none => Except.ok data
  | some disk =>
    let d := ensure_release (ensure_name disk name) name rel
    let merged := mergeStore (mergeStore [] d) data
    setStoreE merged name rel contdata

/-- The store held by a fresh `SupportMatrixExtractor` after `__init__`:
`self.data[name][release] = self.contdata`, with an empty record. -/
def initData (name rel : String) : Store :=
  [(name, [(rel, [])])]

/-- The complete load-then-merge behaviour for one freshly built record:
`from_json` runs on the store of `__init__` while `self.contdata` is still
empty, and the aliasing of `self.contdata` inside `self.data` means the
store finally written holds the fully populated record at the
(name, release) path. -/
def load_then_merge (file : Option Store) (name rel : String)
    (fresh : Record) : Except PyExc Store :=
  (from_json file name rel (initData name rel) []).map
    (fun s => setStore s name rel fresh)

/-- The per-container derived-field switch at the end of the main loop:
a fixed sentinel for `merlin-training`, a synthesized upstream registry
reference for the two framework training images, and a reformatted
`base_container` value for every other container name.  The subscripts
`xtr.contdata[...]` raise KeyError when the key is absent. -/
def derive_base_container (cont : String) (r : Record) : Except PyExc Record :=
  if cont = "merlin-training" then
    Except.ok (insert_snippet "base_container" (PyVal.str "Not applicable") r)
  else if cont = "merlin-tensorflow-training" then
    match lookupL r "nvidia_tensorflow" with
    | none => Except.error (PyExc.keyError "nvidia_tensorflow")
    | some tf2_img =>
      match lookupL r "python_major" with
      | none => Except.error (PyExc.keyError "python_major")
      | some py_maj =>
        Except.ok (insert_snippet "base_container"
          (PyVal.str ("nvcr.io/nvidia/tensorflow:" ++ pyFormat tf2_img ++ "-py" ++ pyFormat py_maj)) r)
  else if cont = "merlin-pytorch-training" then
    match lookupL r "nvidia_pytorch" with
    | none => Except.error (PyExc.keyError "nvidia_pytorch")
    | some pt_img =>
      match lookupL r "python_major" with
      | none => Except.error (PyExc.keyError "python_major")
      | some py_maj =>
        Except.ok (insert_snippet "base_container"
          (PyVal.str ("nvcr.io/nvidia/pytorch:" ++ pyFormat pt_img ++ "-py" ++ pyFormat py_maj)) r)
  else
    match lookupL r "base_container" with
    | none => Except.error (PyExc.keyError "base_container")
    | some trtoss =>
      Except.ok (insert_snippet "base_container"
        (PyVal.str ("Triton version " ++ pyFormat trtoss)) r)

/-- The shell command used for the `sm` key (apostrophes written as
hexadecimal escapes). -/
def smCmd : String :=
  "if [ ! -f /usr/local/hugectr/lib/libhuge_ctr_shared.so ]; then exit 1; fi; cuobjdump /usr/local/hugectr/lib/libhuge_ctr_shared.so | grep arch | sed -e \x27s/.*sm_//\x27"

/-- The shell command used for the `python_major` key. -/
def pythonMajorCmd : String :=
  "python -c \"import sys;print(sys.version_info[0]);\""

/-- The mandatory snippet keys, `standard_snippets`. -/
def standard_snippets : List String :=
  ["dgx_system", "nvidia_driver", "gpu_model"]

/-- The body of the main loop from the snippet inserts through the
derived-field switch: every extractor runs in the order of the script on
the record of a fresh extractor.  `snip` models the loaded snippets
mapping, `args_version` the raw `-v` command-line option — note that the
`release` snippet stores `args.version` itself, not the defaulted
version. -/
def extract_all (ex : ExecFun) (attrs : List (String × PyVal))
    (snip : String → PyVal) (args_version : Option String)
    (cont : String) : Except PyExc Record := do
  let r : Record := []
  let r := insert_snippet "dgx_system" (snip "dgx_system") r
  let r := insert_snippet "nvidia_driver" (snip "nvidia_driver") r
  let r := insert_snippet "gpu_model" (snip "gpu_model") r
  let r := insert_snippet "release"
    (match args_version with
     | some v => PyVal.str v
     | none => PyVal.pyNone) r
  let r ← get_from_image attrs "Size" (some "size") r
  let r := get_from_envfile ex "/etc/os-release" "PRETTY_NAME" (some "os") r
  let r := get_from_env ex "CUDA_VERSION" (some "cuda") r
  let r := get_from_pip ex "rmm" none r
  let r := get_from_pip ex "cudf" none r
  let r := get_from_env ex "CUDNN_VERSION" (some "cudnn") r
  let r := get_from_pip ex "nvtabular" none r
  let r := get_from_pip ex "transformers4rec" none r
  let r := get_from_pip ex "merlin.core" none r
  let r := get_from_pip ex "merlin.systems" none r
  let r := get_from_pip ex "merlin.models" none r
  let r := get_from_pip ex "hugectr2onnx" none r
  let r := get_from_pip ex "hugectr" none r
  let r := get_from_pip ex "sparse_operation_kit" none r
  let r := get_from_pip ex "tensorflow" (some "tf") r
  let r := get_from_pip ex "torch" (some "pytorch") r
  let r := get_from_env ex "CUBLAS_VERSION" (some "cublas") r
  let r := get_from_env ex "CUFFT_VERSION" (some "cufft") r
  let r := get_from_env ex "CURAND_VERSION" (some "curand") r
  let r := get_from_env ex "CUSOLVER_VERSION" (some "cusolver") r
  let r := get_from_env ex "CUSPARSE_VERSION" (some "cusparse") r
  let r := get_from_env ex "CUTENSOR_VERSION" (some "cutensor") r
  let r := get_from_env ex "NVIDIA_TENSORFLOW_VERSION" (some "nvidia_tensorflow") r
  let r := get_from_env ex "NVIDIA_PYTORCH_VERSION" (some "nvidia_pytorch") r
  let r := get_from_env ex "OPENMPI_VERSION" (some "openmpi") r
  let r := get_from_env ex "TRT_VERSION" (some "tensorrt") r
  let r := get_from_env ex "TRTOSS_VERSION" (some "base_container") r
  let r := get_from_cmd ex smCmd "sm" r
  let r := get_from_cmd ex "cat /opt/tritonserver/TRITON_VERSION" "triton" r
  let r := get_from_cmd ex pythonMajorCmd "python_major" r
  derive_base_container cont r

/-- What the orchestrator can observe about one image: the startup outcome
of its container and, when started, the exec interface and the image
metadata. -/
structure ContainerEnv where
  start : StartOutcome
  ex : ExecFun
  attrs : List (String × PyVal)

/-- Processing of one container inside the main loop.  The with-body skips
when the yielded value is an exception instance, and otherwise builds the
extractor state, loads and merges the store file, runs every extractor and
the derived-field switch, and writes the store back (the write is the
serialization of `self.data`, in which the final record sits by
aliasing).  The second component is the docker lifecycle event trace of
`managed_container`. -/
def process_container (cenv : ContainerEnv) (cont ngc version : String)
    (args_version : Option String) (snip : String → PyVal)
    (fs : Option Store) : Except PyExc (Option Store) × List Event :=
  managed_container cenv.start (fun y =>
    match y with
    | Yielded.exc _ => Except.ok fs
    | Yielded.cont _ => do
      let name := ngc ++ cont
      let base ← from_json fs name version (initData name version) []
      let rec₁ ← extract_all cenv.ex cenv.attrs snip args_version cont
      pure (some (setStore base name version rec₁)))

/-- The fixed container list of `main`. -/
def containersList : List String :=
  ["merlin-training", "merlin-tensorflow-training", "merlin-pytorch-training",
   "merlin-inference", "merlin-tensorflow-inference", "merlin-pytorch-inference"]

/-- The defaulted release value: `args.version` if supplied, else the
current year-month string. -/
def effective_version (args_version : Option String) (year month : Nat) : String :=
  args_version.getD (get_yymm year month)

/-- The main loop over the container list: each container is processed in
turn against the current contents of the store file; an error escaping a
with-scope aborts the run. -/
def main_loop (conts : List String) (envOf : String → ContainerEnv)
    (ngc version : String) (args_version : Option String)
    (snip : String → PyVal) (fs : Option Store) : Except PyExc (Option Store) :=
  match conts with
  | [] => Except.ok fs
  | c :: rest =>
    match (process_container (envOf c) c ngc version args_version snip fs).1 with
    | Except.ok fs₁ => main_loop rest envOf ngc version args_version snip fs₁
    | Except.error e => Except.error e

/-! Basic facts about the Python-dict model. -/

theorem lookupL_setL_self {α : Type} (l : List (String × α)) (k : String) (v : α) :
    lookupL (setL l k v) k = some v := by
  induction l with
  | nil => simp [setL, lookupL]
  | cons p tl ih =>
    obtain ⟨k₁, v₁⟩ := p
    by_cases h : k₁ = k
    · simp [setL, lookupL, h]
    · simp [setL, lookupL, h, ih]

theorem lookupL_setL_ne {α : Type} (l : List (String × α)) (k k₁ : String) (v : α)
    (h : k₁ ≠ k) : lookupL (setL l k v) k₁ = lookupL l k₁ := by
  induction l with
  | nil => simp [setL, lookupL, Ne.symm h]
  | cons p tl ih =>
    obtain ⟨k₂, v₂⟩ := p
    by_cases h₂ : k₂ = k
    · subst h₂
      simp [setL, lookupL, Ne.symm h]
    · simp [setL, lookupL, h₂, ih]

theorem setL_setL {α : Type} (l : List (String × α)) (k : String) (a b : α) :
    setL (setL l k a) k b = setL l k b := by
  induction l with
  | nil => simp [setL]
  | cons p tl ih =>
    obtain ⟨k₁, v₁⟩ := p
    by_cases h : k₁ = k <;> simp [setL, h, ih]

theorem setL_of_absent {α : Type} (l : List (String × α)) (k : String) (v : α)
    (h : lookupL l k = none) : setL l k v = l ++ [(k, v)] := by
  induction l with
  | nil => simp [setL]
  | cons p tl ih =>
    obtain ⟨k₁, v₁⟩ := p
    by_cases h₁ : k₁ = k
    · simp [lookupL, h₁] at h
    · simp [lookupL, h₁] at h
      simp [setL, h₁, ih h]

theorem lookupL_append {α : Type} (l₁ l₂ : List (String × α)) (k : String) :
    lookupL (l₁ ++ l₂) k =
      match lookupL l₁ k with
      | some v => some v
      | none => lookupL l₂ k := by
  induction l₁ with
  | nil => simp [lookupL]
  | cons p tl ih =>
    obtain ⟨k₁, v₁⟩ := p
    by_cases h : k₁ = k <;> simp [lookupL, h, ih]

theorem keysOf_setL {α : Type} (l : List (String × α)) (k : String) (v : α) :
    keysOf (setL l k v) =
      if (lookupL l k).isSome then keysOf l else keysOf l ++ [k] := by
  induction l with
  | nil => simp [setL, keysOf, lookupL]
  | cons p tl ih =>
    obtain ⟨k₁, v₁⟩ := p
    by_cases h : k₁ = k
    · simp [setL, keysOf, lookupL, h]
    · simp only [setL, keysOf, lookupL, h, if_false, List.map_cons]
      have ih₁ : List.map Prod.fst (setL tl k v) =
          if (lookupL tl k).isSome then List.map Prod.fst tl
          else List.map Prod.fst tl ++ [k] := by
        simpa [keysOf] using ih
      rw [ih₁]
      by_cases h₂ : (lookupL tl k).isSome <;> simp [h₂]

/-! Claim theorems about the five extractors. -/

/-- C7: for the env-direct and env-from-file extractors, a lookup succeeds
exactly when the exit status is the acceptable kind (anything but 1) and the
output is not all-whitespace; on success the stored value is the output with
double quotes removed and surrounding whitespace stripped; in particular an
env lookup of CUDA_VERSION producing output 11.6 plus a trailing newline
stores exactly 11.6. -/
theorem env_extractors_success_iff :
    (∀ (err : Nat) (out lookup : String) (key : Option String) (r : Record),
      get_from_env (fun _ => (err, out)) lookup key r =
        if err ≠ 1 ∧ pyIsSpace out = false then
          setL r (key.getD lookup) (PyVal.str (pyStrip (removeQuotes out)))
        else
          setL r (key.getD lookup) (PyVal.str ERROR))
  ∧ (∀ (err : Nat) (path out lookup : String) (key : Option String) (r : Record),
      get_from_envfile (fun _ => (err, out)) path lookup key r =
        if err ≠ 1 ∧ pyIsSpace out = false then
          setL r (key.getD lookup) (PyVal.str (pyStrip (removeQuotes out)))
        else
          setL r (key.getD lookup) (PyVal.str ERROR))
  ∧ get_from_env (fun _ => (0, "11.6\n")) "CUDA_VERSION" (some "cuda") [] =
      [("cuda", PyVal.str "11.6")] := by
  refine ⟨?_, ?_, by decide⟩
  · intro err out lookup key r
    by_cases h₁ : err = 1 <;> by_cases h₂ : pyIsSpace out <;>
      simp [get_from_env, h₁, h₂, setL_setL]
  · intro err path out lookup key r
    by_cases h₁ : err = 1 <;> by_cases h₂ : pyIsSpace out <;>
      simp [get_from_envfile, h₁, h₂, setL_setL]

/-- C9: the pip extractor keeps the sentinel on a non-zero exit status;
on exit 0 it stores the stripped last whitespace-separated token of the
unique line starting with the marker, and keeps the sentinel when the
number of marker lines is not exactly one. -/
theorem get_from_pip_version_parsing :
    (∀ (err : Nat) (out lookup : String) (key : Option String) (r : Record),
      err ≠ 0 →
      get_from_pip (fun _ => (err, out)) lookup key r =
        setL r (key.getD lookup) (PyVal.str ERROR))
  ∧ (∀ (out lookup : String) (key : Option String) (r : Record) (line : String),
      (pySplitLines out).filter (fun l => startsWithStr "Version:" l) = [line] →
      get_from_pip (fun _ => (0, out)) lookup key r =
        setL r (key.getD lookup) (PyVal.str (pyStrip (lastToken line))))
  ∧ (∀ (out lookup : String) (key : Option String) (r : Record),
      ((pySplitLines out).filter (fun l => startsWithStr "Version:" l)).length ≠ 1 →
      get_from_pip (fun _ => (0, out)) lookup key r =
        setL r (key.getD lookup) (PyVal.str ERROR)) := by
  refine ⟨?_, ?_, ?_⟩
  · intro err out lookup key r h
    simp [get_from_pip, h]
  · intro out lookup key r line h
    simp [get_from_pip, h, setL_setL]
  · intro out lookup key r h
    simp only [get_from_pip, ne_eq, not_true_eq_false, bne_self_eq_false,
      Bool.false_eq_true, if_false]
    cases hv : ((pySplitLines out).filter (fun l => startsWithStr "Version:" l)).map lastToken with
    | nil => simp
    | cons v tl =>
      cases tl with
      | nil =>
        exfalso
        apply h
        have := congrArg List.length hv
        simpa using this
      | cons v₂ tl₂ => simp

/-- C9 witness: concrete instances discharging each hypothesis of the pip
parsing theorem. -/
theorem get_from_pip_version_parsing_witness :
    get_from_pip (fun _ => (1, "boom")) "rmm" Option.none [] =
      setL [] "rmm" (PyVal.str ERROR)
  ∧ get_from_pip (fun _ => (0, "Name: rmm\nVersion: 22.02.0\n")) "rmm" Option.none [] =
      setL [] "rmm" (PyVal.str (pyStrip (lastToken "Version: 22.02.0")))
  ∧ get_from_pip (fun _ => (0, "Name: rmm\n")) "rmm" Option.none [] =
      setL [] "rmm" (PyVal.str ERROR) :=
  ⟨get_from_pip_version_parsing.1 1 "boom" "rmm" Option.none [] (by decide),
   get_from_pip_version_parsing.2.1 "Name: rmm\nVersion: 22.02.0\n" "rmm" Option.none []
     "Version: 22.02.0" (by decide),
   get_from_pip_version_parsing.2.2 "Name: rmm\n" "rmm" Option.none [] (by decide)⟩

/-- C10: for the env-direct, env-from-file and shell-command extractors,
failure is detected only at exit status exactly 1: any other status with
non-all-whitespace output stores the (normalized) command output instead of
leaving the sentinel. -/
theorem status_other_than_one_is_success :
    (∀ (err : Nat) (out lookup : String) (key : Option String) (r : Record),
      err ≠ 1 → pyIsSpace out = false →
      get_from_env (fun _ => (err, out)) lookup key r =
        setL r (key.getD lookup) (PyVal.str (pyStrip (removeQuotes out))))
  ∧ (∀ (err : Nat) (path out lookup : String) (key : Option String) (r : Record),
      err ≠ 1 → pyIsSpace out = false →
      get_from_envfile (fun _ => (err, out)) path lookup key r =
        setL r (key.getD lookup) (PyVal.str (pyStrip (removeQuotes out))))
  ∧ (∀ (err : Nat) (out cmd key : String) (r : Record),
      err ≠ 1 → pyIsSpace out = false →
      get_from_cmd (fun _ => (err, out)) cmd key r =
        if key = "sm" then setL r key (PyVal.str (joinSep ", " (pySplitWhite out)))
        else setL r key (PyVal.str (pyStrip out))) := by
  refine ⟨?_, ?_, ?_⟩
  · intro err out lookup key r h₁ h₂
    simp [get_from_env, h₁, h₂, setL_setL]
  · intro err path out lookup key r h₁ h₂
    simp [get_from_envfile, h₁, h₂, setL_setL]
  · intro err out cmd key r h₁ h₂
    by_cases hk : key = "sm" <;> simp [get_from_cmd, h₁, hk, setL_setL]

/-- C10 witness: exit statuses 2 and 127 with non-blank output store the
output for each of the three extractors. -/
theorem status_other_than_one_is_success_witness :
    get_from_env (fun _ => (2, "11.6\n")) "CUDA_VERSION" (some "cuda") [] =
      setL [] "cuda" (PyVal.str (pyStrip (removeQuotes "11.6\n")))
  ∧ get_from_envfile (fun _ => (127, "Ubuntu")) "/etc/os-release" "PRETTY_NAME" (some "os") [] =
      setL [] "os" (PyVal.str (pyStrip (removeQuotes "Ubuntu")))
  ∧ get_from_cmd (fun _ => (127, "2.19.0")) "cat /opt/tritonserver/TRITON_VERSION" "triton" [] =
      setL [] "triton" (PyVal.str (pyStrip "2.19.0"))
  ∧ get_from_cmd (fun _ => (2, "70\n75\n80")) "c" "sm" [] =
      setL [] "sm" (PyVal.str (joinSep ", " (pySplitWhite "70\n75\n80"))) :=
  ⟨status_other_than_one_is_success.1 2 "11.6\n" "CUDA_VERSION" (some "cuda") []
      (by decide) (by decide),
   status_other_than_one_is_success.2.1 127 "/etc/os-release" "Ubuntu" "PRETTY_NAME"
      (some "os") [] (by decide) (by decide),
   by
    have := status_other_than_one_is_success.2.2 127 "2.19.0"
      "cat /opt/tritonserver/TRITON_VERSION" "triton" [] (by decide) (by decide)
    simpa using this,
   by
    have := status_other_than_one_is_success.2.2 2 "70\n75\n80" "c" "sm" []
      (by decide) (by decide)
    simpa using this⟩

/-- C8: with the Size attribute present as a byte count, the
image-attribute extractor stores the count divided by 1024 cubed, rounded
to two decimal places, with the GB suffix; the concrete byte count
10737418240 is stored as exactly the string 10.0 GB. -/
theorem get_from_image_size_gb :
    (∀ (attrs : List (String × PyVal)) (n : Int) (key : Option String) (r : Record),
      lookupL attrs "Size" = some (PyVal.int n) →
      get_from_image attrs "Size" key r =
        Except.ok (setL r (key.getD "Size") (PyVal.str (formatGB n))))
  ∧ get_from_image [("Size", PyVal.int 10737418240)] "Size" (some "size") [] =
      Except.ok [("size", PyVal.str "10.0 GB")]
  ∧ formatGB 10737418240 = "10.0 GB" := by
  refine ⟨?_, rfl, by decide⟩
  intro attrs n key r h
  simp [get_from_image, h, setL_setL]

/-- C8 witness: the general Size conversion applied at the concrete byte
count of the scenario. -/
theorem get_from_image_size_gb_witness :
    get_from_image [("Size", PyVal.int 10737418240)] "Size" (some "size") [] =
      Except.ok (setL [] "size" (PyVal.str (formatGB 10737418240))) :=
  get_from_image_size_gb.1 [("Size", PyVal.int 10737418240)] 10737418240 (some "size") []
    (by decide)

/-- C4: the derived base_container field is a closed switch on the
container name: the fixed sentinel string for merlin-training regardless of
the record contents; the synthesized upstream registry reference for the
tensorflow and pytorch training images from the previously extracted
framework version and python_major; and the string Triton version followed
by the previously extracted base_container value for every other name. -/
theorem derive_base_container_switch :
    (∀ r : Record,
      derive_base_container "merlin-training" r =
        Except.ok (setL r "base_container" (PyVal.str "Not applicable")))
  ∧ (∀ (r : Record) (tf py : PyVal),
      lookupL r "nvidia_tensorflow" = some tf →
      lookupL r "python_major" = some py →
      derive_base_container "merlin-tensorflow-training" r =
        Except.ok (setL r "base_container"
          (PyVal.str ("nvcr.io/nvidia/tensorflow:" ++ pyFormat tf ++ "-py" ++ pyFormat py))))
  ∧ (∀ (r : Record) (pt py : PyVal),
      lookupL r "nvidia_pytorch" = some pt →
      lookupL r "python_major" = some py →
      derive_base_container "merlin-pytorch-training" r =
        Except.ok (setL r "base_container"
          (PyVal.str ("nvcr.io/nvidia/pytorch:" ++ pyFormat pt ++ "-py" ++ pyFormat py))))
  ∧ (∀ (cont : String) (r : Record) (bc : PyVal),
      cont ≠ "merlin-training" → cont ≠ "merlin-tensorflow-training" →
      cont ≠ "merlin-pytorch-training" →
      lookupL r "base_container" = some bc →
      derive_base_container cont r =
        Except.ok (setL r "base_container"
          (PyVal.str ("Triton version " ++ pyFormat bc)))) := by
  refine ⟨?_, ?_, ?_, ?_⟩
  · intro r
    simp [derive_base_container, insert_snippet]
  · intro r tf py h₁ h₂
    simp [derive_base_container, insert_snippet, h₁, h₂]
  · intro r pt py h₁ h₂
    simp [derive_base_container, insert_snippet, h₁, h₂]
  · intro cont r bc h₁ h₂ h₃ h₄
    simp [derive_base_container, insert_snippet, h₁, h₂, h₃, h₄]

/-- C4 witness: every branch of the switch discharged at a concrete
record. -/
theorem derive_base_container_switch_witness :
    derive_base_container "merlin-training" [("cuda", PyVal.str "11.6")] =
      Except.ok (setL [("cuda", PyVal.str "11.6")] "base_container"
        (PyVal.str "Not applicable"))
  ∧ derive_base_container "merlin-tensorflow-training"
      [("nvidia_tensorflow", PyVal.str "22.02"), ("python_major", PyVal.str "3")] =
      Except.ok (setL [("nvidia_tensorflow", PyVal.str "22.02"), ("python_major", PyVal.str "3")]
        "base_container"
        (PyVal.str ("nvcr.io/nvidia/tensorflow:" ++ pyFormat (PyVal.str "22.02") ++ "-py" ++
          pyFormat (PyVal.str "3"))))
  ∧ derive_base_container "merlin-pytorch-training"
      [("nvidia_pytorch", PyVal.str "22.02"), ("python_major", PyVal.str "3")] =
      Except.ok (setL [("nvidia_pytorch", PyVal.str "22.02"), ("python_major", PyVal.str "3")]
        "base_container"
        (PyVal.str ("nvcr.io/nvidia/pytorch:" ++ pyFormat (PyVal.str "22.02") ++ "-py" ++
          pyFormat (PyVal.str "3"))))
  ∧ derive_base_container "merlin-inference" [("base_container", PyVal.str "22.02")] =
      Except.ok (setL [("base_container", PyVal.str "22.02")] "base_container"
        (PyVal.str ("Triton version " ++ pyFormat (PyVal.str "22.02")))) :=
  ⟨derive_base_container_switch.1 [("cuda", PyVal.str "11.6")],
   derive_base_container_switch.2.1 _ (PyVal.str "22.02") (PyVal.str "3")
     (by decide) (by decide),
   derive_base_container_switch.2.2.1 _ (PyVal.str "22.02") (PyVal.str "3")
     (by decide) (by decide),
   derive_base_container_switch.2.2.2 "merlin-inference" _ (PyVal.str "22.02")
     (by decide) (by decide) (by decide) (by decide)⟩

/-- C1 is refuted by the code: the image-attribute extractor re-reads
`attrs[lookup]` outside its try/except when the lookup is Size, so a
metadata lookup failure for Size raises KeyError out of the extractor call
instead of leaving the sentinel (the adjacent try/except shows the
intended graceful degradation, which the other extractors do implement:
each stores the sentinel and returns on a failed command). -/
theorem get_from_image_size_raises_keyerror :
    get_from_image [] "Size" Option.none [] = Except.error (PyExc.keyError "Size")
  ∧ get_from_envfile (fun _ => (1, "")) "/etc/os-release" "PRETTY_NAME" (some "os") [] =
      [("os", PyVal.str ERROR)]
  ∧ get_from_env (fun _ => (1, "")) "CUDA_VERSION" Option.none [] =
      [("CUDA_VERSION", PyVal.str ERROR)]
  ∧ get_from_pip (fun _ => (1, "")) "rmm" Option.none [] =
      [("rmm", PyVal.str ERROR)]
  ∧ get_from_cmd (fun _ => (1, "")) "cat /opt/tritonserver/TRITON_VERSION" "triton" [] =
      [("triton", PyVal.str ERROR)]
  ∧ get_from_image [("Id", PyVal.str "sha256:abc")] "Author" Option.none [] =
      Except.ok [("Author", PyVal.str ERROR)] :=
  ⟨rfl, by decide, by decide, by decide, by decide, rfl⟩

/-- Concrete exec interface for whole-pipeline evaluations: every command
exits 0 with a plain output. -/
def exampleExec : ExecFun := fun _ => (0, "1.0")

/-- Concrete image metadata for whole-pipeline evaluations. -/
def exampleAttrs : List (String × PyVal) := [("Size", PyVal.int 1073741824)]

/-- Concrete snippets mapping for whole-pipeline evaluations. -/
def exampleSnip : String → PyVal := fun _ => PyVal.str "snippet"

/-- C6 is refuted by the code: the release snippet stores `args.version`
itself, not the defaulted release.  When the version option is absent the
record therefore holds Python None under the release key, never the
defaulted year-month string that names the release everywhere else in the
run; only when the option is supplied do the two coincide. -/
theorem release_snippet_stores_raw_argument :
    ((extract_all exampleExec exampleAttrs exampleSnip Option.none
        "merlin-training").toOption.bind (fun r => lookupL r "release")) =
      some PyVal.pyNone
  ∧ (∀ year month : Nat,
      (some PyVal.pyNone : Option PyVal) ≠ some (PyVal.str (get_yymm year month)))
  ∧ ((extract_all exampleExec exampleAttrs exampleSnip (some "22.03")
        "merlin-training").toOption.bind (fun r => lookupL r "release")) =
      some (PyVal.str "22.03")
  ∧ effective_version Option.none 2022 3 = get_yymm 2022 3 := by
  refine ⟨by decide, ?_, by decide, rfl⟩
  intro year month h
  cases h

/-- C5: an image whose reference resolves to no image makes the with-body
skip: the store file state is returned unchanged (no write happens), the
outcome is not an error, and the main loop over the remaining containers
proceeds exactly as if the skipped container were not in the list. -/
theorem image_not_found_skips_and_preserves_store :
    ∀ (envOf : String → ContainerEnv) (c : String) (rest : List String)
      (ngc version : String) (args_version : Option String)
      (snip : String → PyVal) (fs : Option Store),
      (envOf c).start = StartOutcome.imageNotFound →
      (process_container (envOf c) c ngc version args_version snip fs).1 =
        Except.ok fs
      ∧ main_loop (c :: rest) envOf ngc version args_version snip fs =
          main_loop rest envOf ngc version args_version snip fs := by
  intro envOf c rest ngc version args_version snip fs h
  constructor
  · simp [process_container, managed_container, h]
  · simp [main_loop, process_container, managed_container, h]

/-- C5 witness: a one-element container list whose image is missing leaves
the store file exactly as it was. -/
theorem image_not_found_skips_and_preserves_store_witness :
    (process_container
        { start := StartOutcome.imageNotFound, ex := exampleExec, attrs := exampleAttrs }
        "merlin-training" "nvcr.io/nvidia/merlin/" "22.02" (some "22.02") exampleSnip
        (some [("old", [("21.11", [("cuda", PyVal.str "11.5")])])])).1 =
      Except.ok (some [("old", [("21.11", [("cuda", PyVal.str "11.5")])])])
  ∧ main_loop ["merlin-training"]
      (fun _ => { start := StartOutcome.imageNotFound, ex := exampleExec, attrs := exampleAttrs })
      "nvcr.io/nvidia/merlin/" "22.02" (some "22.02") exampleSnip
      (some [("old", [("21.11", [("cuda", PyVal.str "11.5")])])]) =
      main_loop []
      (fun _ => { start := StartOutcome.imageNotFound, ex := exampleExec, attrs := exampleAttrs })
      "nvcr.io/nvidia/merlin/" "22.02" (some "22.02") exampleSnip
      (some [("old", [("21.11", [("cuda", PyVal.str "11.5")])])]) :=
  image_not_found_skips_and_preserves_store
    (fun _ => { start := StartOutcome.imageNotFound, ex := exampleExec, attrs := exampleAttrs })
    "merlin-training" [] "nvcr.io/nvidia/merlin/" "22.02" (some "22.02") exampleSnip
    (some [("old", [("21.11", [("cuda", PyVal.str "11.5")])])]) rfl

/-- C3: whenever the container session scope started a container (a run
event appears in its trace), the trace also stops and removes that
container, whatever the with-body does — completes, skips, or raises. -/
theorem managed_container_always_releases :
    ∀ (start : StartOutcome) (body : Yielded → Except PyExc (Option Store)) (cid : Nat),
      Event.run cid ∈ (managed_container start body).2 →
      Event.stop cid ∈ (managed_container start body).2 ∧
        Event.remove cid ∈ (managed_container start body).2 := by
  intro start body cid h
  cases start with
  | started c =>
    cases hb : body (Yielded.cont c) with
    | ok a =>
      simp [managed_container, hb] at h ⊢
      simp [h]
    | error e =>
      simp [managed_container, hb] at h ⊢
      simp [h]
  | imageNotFound => simp [managed_container] at h
  | otherError => simp [managed_container] at h

/-- C3 witness: a started container with a raising body still gets stopped
and removed. -/
theorem managed_container_always_releases_witness :
    Event.stop 7 ∈ (managed_container (StartOutcome.started 7)
        (fun _ => (Except.error PyExc.otherErr : Except PyExc (Option Store)))).2
  ∧ Event.remove 7 ∈ (managed_container (StartOutcome.started 7)
        (fun _ => (Except.error PyExc.otherErr : Except PyExc (Option Store)))).2 :=
  managed_container_always_releases (StartOutcome.started 7)
    (fun _ => Except.error PyExc.otherErr) 7 (by decide)

/-! Facts about the deep merge, towards the data-store invariant. -/

theorem lookupL_eq_none_iff {α : Type} (l : List (String × α)) (k : String) :
    lookupL l k = none ↔ k ∉ keysOf l := by
  induction l with
  | nil => simp [lookupL, keysOf]
  | cons p tl ih =>
    obtain ⟨k₁, v₁⟩ := p
    by_cases h : k₁ = k
    · simp [lookupL, keysOf, h]
    · simp [lookupL, keysOf, h, ih, Ne.symm h]

theorem mergeStore_disjoint (src : Store) : ∀ dst : Store,
    (keysOf src).Nodup → (∀ k ∈ keysOf src, lookupL dst k = none) →
    mergeStore dst src = dst ++ src := by
  induction src with
  | nil =>
    intro dst _ _
    simp [mergeStore]
  | cons p tl ih =>
    intro dst hnd hdisj
    obtain ⟨k, v⟩ := p
    have hkeys : keysOf ((k, v) :: tl) = k :: keysOf tl := rfl
    have hnd' : (k :: keysOf tl).Nodup := by rwa [hkeys] at hnd
    have hk : lookupL dst k = none := hdisj k (by rw [hkeys]; exact List.mem_cons_self k _)
    have hknot : k ∉ keysOf tl := (List.nodup_cons.mp hnd').1
    have hnd₁ : (keysOf tl).Nodup := (List.nodup_cons.mp hnd').2
    have hdisj₁ : ∀ k₁ ∈ keysOf tl, lookupL (dst ++ [(k, v)]) k₁ = none := by
      intro k₁ hk₁
      rw [lookupL_append, hdisj k₁ (by rw [hkeys]; exact List.mem_cons_of_mem k hk₁)]
      have : ¬ k = k₁ := fun hh => hknot (hh ▸ hk₁)
      simp [lookupL, this]
    simp only [mergeStore, hk]
    rw [setL_of_absent dst k v hk, ih (dst ++ [(k, v)]) hnd₁ hdisj₁]
    simp

theorem mergeStore_nil_eq (d : Store) (h : (keysOf d).Nodup) :
    mergeStore [] d = d := by
  have := mergeStore_disjoint d [] h (by intro k _; rfl)
  simpa using this

theorem lookupL_ensure_name_self (s : Store) (name : String) :
    lookupL (ensure_name s name) name = some ((lookupL s name).getD []) := by
  unfold ensure_name
  cases h : lookupL s name with
  | some m => simp [h]
  | none => simp [h, lookupL_setL_self]

theorem lookupL_ensure_name_ne (s : Store) (name n : String) (h : n ≠ name) :
    lookupL (ensure_name s name) n = lookupL s n := by
  unfold ensure_name
  by_cases hs : (lookupL s name).isSome
  · simp [hs]
  · simp [hs, lookupL_setL_ne _ _ _ _ h]

theorem lookupL_ensure_release_ne (s : Store) (name rel n : String) (h : n ≠ name) :
    lookupL (ensure_release s name rel) n = lookupL s n := by
  unfold ensure_release
  cases hs : lookupL s name with
  | none => rfl
  | some m =>
    by_cases hr : (lookupL m rel).isSome <;>
      simp [hr, lookupL_setL_ne _ _ _ _ h]

theorem lookupL_ensure_release_self (s : Store) (name rel : String) (m : RelMap)
    (hm : lookupL s name = some m) :
    lookupL (ensure_release s name rel) name =
      some (if (lookupL m rel).isSome then m else setL m rel []) := by
  unfold ensure_release
  rw [hm]
  by_cases hr : (lookupL m rel).isSome <;> simp [hr, hm, lookupL_setL_self]

theorem keysOf_ensure_name_nodup (s : Store) (name : String)
    (h : (keysOf s).Nodup) : (keysOf (ensure_name s name)).Nodup := by
  unfold ensure_name
  by_cases hs : (lookupL s name).isSome
  · simpa [hs]
  · rw [if_neg hs, keysOf_setL]
    have hnone : lookupL s name = none := by
      cases hl : lookupL s name
      · rfl
      · exact absurd (by simp [hl]) hs
    have : name ∉ keysOf s := (lookupL_eq_none_iff s name).mp hnone
    simp [hnone, List.nodup_append, h, this]

theorem keysOf_ensure_release_nodup (s : Store) (name rel : String)
    (h : (keysOf s).Nodup) : (keysOf (ensure_release s name rel)).Nodup := by
  unfold ensure_release
  cases hs : lookupL s name with
  | none => simpa
  | some m =>
    by_cases hr : (lookupL m rel).isSome
    · simpa [hr]
    · simp [hr, keysOf_setL, hs, h]

/-- Core computation behind the data-store invariant: once the ensured
on-disk store `d`, its release map `mEns` at the name, and the existing
record `r₀` at the release are identified, the load-then-merge pipeline
reduces to a single two-level update of `d`. -/
theorem from_json_aux (disk d : Store) (name rel : String) (fresh : Record)
    (mEns : RelMap) (r₀ : Record)
    (hdnd : (keysOf d).Nodup)
    (hdn : lookupL d name = some mEns)
    (hr₀ : lookupL mEns rel = some r₀)
    (hdne : ∀ n, n ≠ name → lookupL d n = lookupL disk n)
    (hmr : ∀ r₁, r₁ ≠ rel → lookupL mEns r₁ = lookup2 disk name r₁)
    (hfrom : ensure_release (ensure_name disk name) name rel = d) :
    ∃ res, load_then_merge (some disk) name rel fresh = Except.ok res
      ∧ (∀ n r₁, ¬(n = name ∧ r₁ = rel) → lookup2 res n r₁ = lookup2 disk n r₁)
      ∧ lookup2 res name rel = some fresh := by
  have hmerged : mergeStore (mergeStore [] d) (initData name rel) =
      setL d name (setL mEns rel r₀) := by
    rw [mergeStore_nil_eq d hdnd]
    show mergeStore d [(name, [(rel, [])])] = _
    simp only [mergeStore, mergeRelMap, mergeRecord, hdn, hr₀]
  have hok : load_then_merge (some disk) name rel fresh =
      Except.ok (setL d name (setL mEns rel fresh)) := by
    simp only [load_then_merge, from_json, hfrom, hmerged, setStoreE, setStore,
      lookupL_setL_self, setL_setL, Except.map]
  refine ⟨setL d name (setL mEns rel fresh), hok, ?_, ?_⟩
  · intro n r₁ hne
    by_cases hn : n = name
    · subst hn
      have hr₁ : r₁ ≠ rel := fun hh => hne ⟨rfl, hh⟩
      simp only [lookup2, lookupL_setL_self]
      rw [lookupL_setL_ne _ _ _ _ hr₁]
      have := hmr r₁ hr₁
      simp only [lookup2] at this
      exact this
    · simp only [lookup2]
      rw [lookupL_setL_ne _ _ _ _ hn, hdne n hn]
  · simp only [lookup2, lookupL_setL_self]

/-- C2: loading a pre-existing on-disk store and merging a freshly built
record for a (name, release) pair produces a store in which every other
(name, release) entry is unchanged and the entry at exactly that pair is
fully replaced by the fresh record, old keys at that path not surviving.
The hypothesis (distinct top-level keys) states that the file contents
came from a JSON object, whose keys are necessarily distinct. -/
theorem load_then_merge_replaces_one_entry :
    ∀ (disk : Store) (name rel : String) (fresh : Record),
      (keysOf disk).Nodup →
      ∃ res, load_then_merge (some disk) name rel fresh = Except.ok res
        ∧ (∀ n r₁, ¬(n = name ∧ r₁ = rel) → lookup2 res n r₁ = lookup2 disk n r₁)
        ∧ lookup2 res name rel = some fresh := by
  intro disk name rel fresh hnd
  have hens1 : lookupL (ensure_name disk name) name =
      some ((lookupL disk name).getD []) := lookupL_ensure_name_self disk name
  have hdn' : lookupL (ensure_release (ensure_name disk name) name rel) name =
      some (if (lookupL ((lookupL disk name).getD []) rel).isSome
            then (lookupL disk name).getD []
            else setL ((lookupL disk name).getD []) rel []) :=
    lookupL_ensure_release_self _ name rel _ hens1
  have hdnd : (keysOf (ensure_release (ensure_name disk name) name rel)).Nodup :=
    keysOf_ensure_release_nodup _ name rel (keysOf_ensure_name_nodup disk name hnd)
  have hdne : ∀ n, n ≠ name →
      lookupL (ensure_release (ensure_name disk name) name rel) n = lookupL disk n := by
    intro n hn
    rw [lookupL_ensure_release_ne _ name rel n hn, lookupL_ensure_name_ne disk name n hn]
  have hm₀r : ∀ r₁, lookupL ((lookupL disk name).getD []) r₁ = lookup2 disk name r₁ := by
    intro r₁
    cases hdisk : lookupL disk name with
    | some m => simp [lookup2, hdisk]
    | none => simp [lookup2, hdisk, lookupL]
  by_cases hrs : (lookupL ((lookupL disk name).getD []) rel).isSome
  · obtain ⟨r₀, hr₀⟩ := Option.isSome_iff_exists.mp hrs
    exact from_json_aux disk _ name rel fresh ((lookupL disk name).getD []) r₀ hdnd
      (by rw [hdn']; simp [hrs]) hr₀ hdne (fun r₁ _ => hm₀r r₁) rfl
  · exact from_json_aux disk _ name rel fresh
      (setL ((lookupL disk name).getD []) rel []) [] hdnd
      (by rw [hdn']; simp [hrs]) (lookupL_setL_self _ _ _) hdne
      (fun r₁ h₁ => by rw [lookupL_setL_ne _ _ _ _ h₁]; exact hm₀r r₁) rfl

/-- C2 witness: a concrete two-container store, with a second release under
the merged name, merged with a fresh record at one pair. -/
theorem load_then_merge_replaces_one_entry_witness :
    (keysOf [("nvcr.io/nvidia/merlin/merlin-training",
        [("21.11", [("cuda", PyVal.str "11.5"), ("stale", PyVal.str "x")]),
         ("22.02", [("stale", PyVal.str "y")])]),
      ("nvcr.io/nvidia/merlin/merlin-inference",
        [("21.11", [("cuda", PyVal.str "11.5")])])]).Nodup
    ∧ ∃ res, load_then_merge
        (some [("nvcr.io/nvidia/merlin/merlin-training",
          [("21.11", [("cuda", PyVal.str "11.5"), ("stale", PyVal.str "x")]),
           ("22.02", [("stale", PyVal.str "y")])]),
         ("nvcr.io/nvidia/merlin/merlin-inference",
          [("21.11", [("cuda", PyVal.str "11.5")])])])
        "nvcr.io/nvidia/merlin/merlin-training" "22.02"
        [("cuda", PyVal.str "11.6")] = Except.ok res
      ∧ (∀ n r₁, ¬(n = "nvcr.io/nvidia/merlin/merlin-training" ∧ r₁ = "22.02") →
          lookup2 res n r₁ = lookup2
            [("nvcr.io/nvidia/merlin/merlin-training",
              [("21.11", [("cuda", PyVal.str "11.5"), ("stale", PyVal.str "x")]),
               ("22.02", [("stale", PyVal.str "y")])]),
             ("nvcr.io/nvidia/merlin/merlin-inference",
              [("21.11", [("cuda", PyVal.str "11.5")])])] n r₁)
      ∧ lookup2 res "nvcr.io/nvidia/merlin/merlin-training" "22.02" =
          some [("cuda", PyVal.str "11.6")] :=
  ⟨by decide,
   load_then_merge_replaces_one_entry
     [("nvcr.io/nvidia/merlin/merlin-training",
       [("21.11", [("cuda", PyVal.str "11.5"), ("stale", PyVal.str "x")]),
        ("22.02", [("stale", PyVal.str "y")])]),
      ("nvcr.io/nvidia/merlin/merlin-inference",
       [("21.11", [("cuda", PyVal.str "11.5")])])]
     "nvcr.io/nvidia/merlin/merlin-training" "22.02"
     [("cuda", PyVal.str "11.6")] (by decide)⟩

end Merlin
